import Mathlib

/-!
Verification of the identifier-resolution core of the `tfstate` sdb module
(`_sdb/terraform.py`).

The Python module resolves dotted/wildcard query keys against a parsed
Terraform state document (JSON).  We shallowly embed the module here:

* `Json` models the Python values flowing through the code (parsed JSON plus
  the Python `None` produced by `dict.get` misses).  It is a mutual inductive
  (`Json` / `JList` / `JObj`) so that every function on it is structurally
  recursive and reduces by `rfl`.
* Fallible Python code is modelled in `Except PyErr`; each `PyErr`
  constructor records which Python exception (and which error kind of the
  design's taxonomy) a given failure site raises.
* `parse_tfstate_file`, `parse_identifier`, `fetch_resource`, `flatten`,
  `set_`, `get` and `notimplmented_backend` are translated from the source
  functions of the same names; dict/regex/string primitives of Python are
  modelled by the `py`-prefixed helpers.
-/

mutual

/-- A Python value as handled by the module: a parsed-JSON tree, where
`null` doubles as Python's `None` (JSON `null` parses to `None`). -/
inductive Json where
  | str (s : String)
  | null
  | arr (xs : JList)
  | obj (kvs : JObj)
deriving DecidableEq

/-- A Python list of values. -/
inductive JList where
  | nil
  | cons (hd : Json) (tl : JList)
deriving DecidableEq

/-- A Python dict (string keys, insertion ordered). -/
inductive JObj where
  | onil
  | ocons (k : String) (v : Json) (tl : JObj)
deriving DecidableEq

end

def JList.ofList : List Json → JList
  | [] => .nil
  | x :: xs => .cons x (JList.ofList xs)

def JList.toList : JList → List Json
  | .nil => []
  | .cons x xs => x :: JList.toList xs

def JObj.ofList : List (String × Json) → JObj
  | [] => .onil
  | (k, v) :: t => .ocons k v (JObj.ofList t)

/-- Build a `Json.arr` from a Lean list. -/
def Json.arrL (l : List Json) : Json := .arr (JList.ofList l)

/-- Build a `Json.obj` from a Lean association list. -/
def Json.objL (l : List (String × Json)) : Json := .obj (JObj.ofList l)

/-- Dict lookup (the `Option`-valued core of Python's `dict.get`). -/
def lookupO : JObj → String → Option Json
  | .onil, _ => none
  | .ocons k0 v0 t, k => if k0 = k then some v0 else lookupO t k

/-- The keys of a dict, in insertion order (Python `for k in d`). -/
def okeys : JObj → List String
  | .onil => []
  | .ocons k _ t => k :: okeys t

/-- `d[k] = v` on a Python dict: replaces in place, or appends a new key. -/
def updateO : JObj → String → Json → JObj
  | .onil, k, v => .ocons k v .onil
  | .ocons k0 v0 t, k, v => if k0 = k then .ocons k v t else .ocons k0 v0 (updateO t k v)

/-- The failure modes of the module.  Each constructor notes the Python
exception raised at the corresponding site and, where the design names it,
the design's error kind. -/
inductive PyErr where
  /-- `ValueError`: the raw key does not unpack into exactly two
  `/`-separated parts (design: `InvalidKeyError`). -/
  | invalidKey
  /-- `TypeError`/`AttributeError` while normalizing the `modules` list
  (design: `MalformedStateError`). -/
  | malformedState
  /-- `AttributeError`: `.get` called on a non-dict value (for example the
  `None` placeholder appended for a missing comma alternative). -/
  | attributeError
  /-- `TypeError`: iterating a non-iterable, or regex-matching a non-string. -/
  | typeError
  /-- `IndexError`: list index out of range. -/
  | indexError
  /-- `TypeError`: `'str' object is not callable` — the backend dispatch
  falls back to the *string* `'notimplmented_backend'` and calls it. -/
  | notCallable
  /-- `salt.exceptions.NotImplemented` (design: `UnsupportedOperationError`
  for `set`, `UnsupportedBackendError` for the backend dispatch). -/
  | notImplemented
deriving DecidableEq

/-- Python iteration `for x in j`: lists yield elements, dicts yield their
keys, strings yield their one-character substrings, `None` is not iterable. -/
def pyIter? : Json → Option (List Json)
  | .arr xs => some xs.toList
  | .obj kvs => some ((okeys kvs).map Json.str)
  | .str s => some (s.data.map (fun c => Json.str (String.mk [c])))
  | .null => none

/-- Iteration in `Except`, raising `e` (the `TypeError`) when not iterable. -/
def pyIterE (j : Json) (e : PyErr) : Except PyErr (List Json) :=
  match pyIter? j with
  | some l => Except.ok l
  | none => Except.error e

/-- `j.get(k, d)`: dict lookup with default; `AttributeError` when `j` is
not a dict (in particular when `j` is `None`). -/
def jGetD (j : Json) (k : String) (d : Json) : Except PyErr Json :=
  match j with
  | .obj kvs => Except.ok ((lookupO kvs k).getD d)
  | _ => Except.error PyErr.attributeError

/-- `j.get(k)`: dict lookup whose default is `None`. -/
def jGet (j : Json) (k : String) : Except PyErr Json := jGetD j k .null

/-- `xs[i]` on a Python list: `IndexError` when out of range. -/
def listIdx (xs : List String) (i : Nat) : Except PyErr String :=
  match xs.get? i with
  | some v => Except.ok v
  | none => Except.error PyErr.indexError

/-- A value used where Python needs a string (regex argument): `TypeError`
otherwise. -/
def asStr (j : Json) : Except PyErr String :=
  match j with
  | .str s => Except.ok s
  | _ => Except.error PyErr.typeError

/-- If `pat` is a prefix of `s`, strip it and return the remainder. -/
def strip? : List Char → List Char → Option (List Char)
  | [], s => some s
  | _ :: _, [] => none
  | p :: ps, c :: cs => if p = c then strip? ps cs else none

/-- Fuelled worker for `pyReplace`; the fuel (the length of the subject)
suffices because every step consumes at least one character when the
pattern is nonempty, and all call sites pass a nonempty pattern. -/
def pyReplaceGo (pat rep : List Char) : Nat → List Char → List Char
  | _, [] => []
  | 0, s => s
  | fuel + 1, c :: cs =>
    match strip? pat (c :: cs) with
    | some rest => rep ++ pyReplaceGo pat rep fuel rest
    | none => c :: pyReplaceGo pat rep fuel cs

/-- Python `s.replace(pat, rep)`: replace every non-overlapping occurrence,
scanning left to right. -/
def pyReplace (s pat rep : String) : String :=
  String.mk (pyReplaceGo pat.data rep.data s.data.length s.data)

/-- Python `s.split(sep)` for a one-character separator (the module only
splits on `/`, `.` and `,`). -/
def pySplit (sep : Char) : List Char → List (List Char)
  | [] => [[]]
  | c :: rest =>
    if c = sep then [] :: pySplit sep rest
    else
      match pySplit sep rest with
      | [] => [[c]]
      | h :: t => (c :: h) :: t

def pySplitStr (sep : Char) (s : String) : List String :=
  (pySplit sep s.data).map String.mk

/-- Python `sub in s` for the one-character substrings the module tests. -/
def hasStar (s : String) : Bool := s.data.contains '*'

def hasComma (s : String) : Bool := s.data.contains ','

/-- One atom of the regular expressions the module compiles: a literal
character, or `.` (any character). -/
inductive RAtom where
  | dot
  | lit (c : Char)
deriving DecidableEq

/-- One token: an atom, or an atom under `+` (one or more). -/
inductive RTok where
  | once (a : RAtom)
  | plus (a : RAtom)
deriving DecidableEq

/-- Compile the pattern strings produced by `key.replace('*', '.+')`:
`.` is the any-character atom, `+` applies to the preceding atom, every
other character is a literal. -/
def rcompile : List Char → List RTok
  | [] => []
  | c :: '+' :: rest =>
    RTok.plus (if c = '.' then RAtom.dot else RAtom.lit c) :: rcompile rest
  | c :: rest =>
    RTok.once (if c = '.' then RAtom.dot else RAtom.lit c) :: rcompile rest

def amatch : RAtom → Char → Bool
  | .dot, _ => true
  | .lit c, x => c == x

/-- `re.match` semantics: the tokens match some prefix of the string
(anchored at the start, not at the end). -/
def rmatch : List RTok → List Char → Bool
  | [], _ => true
  | _ :: _, [] => false
  | RTok.once a :: ts, x :: xs => amatch a x && rmatch ts xs
  | RTok.plus a :: ts, x :: xs => amatch a x && (rmatch ts xs || rmatch (RTok.plus a :: ts) xs)

/-- `re.search` semantics: the tokens match starting at some position. -/
def rsearch (ts : List RTok) : List Char → Bool
  | [] => rmatch ts []
  | x :: xs => rmatch ts (x :: xs) || rsearch ts xs

mutual

/-- `flatten` (terraform.py line 165): collapse every one-element list to
its sole element, recursively; map over longer lists; pass every non-list
value (strings, `None`, dicts) through unchanged. -/
def flatten : Json → Json
  | .arr (.cons x .nil) => flatten x
  | .arr xs => .arr (flattenJL xs)
  | j => j

def flattenJL : JList → JList
  | .nil => .nil
  | .cons x xs => .cons (flatten x) (flattenJL xs)

end

/-- The name of the Python type of a value (`type(x)` printed): relevant
because line 133 compares `type(result)` with the *string* `'string'`,
which no type ever equals (the string type is named `str`). -/
def pyTypeName : Json → String
  | .str _ => "str"
  | .null => "NoneType"
  | .arr _ => "list"
  | .obj _ => "dict"

def jsonEscapeChar (c : Char) : String :=
  if c = '\\' then "\\\\" else if c = '"' then "\\\"" else String.mk [c]

/-- Escaping of the characters that occur in this module's data
(`json.dumps` additionally escapes control characters, which never occur
in the keys and values exercised here). -/
def jsonEscape (s : String) : String := String.join (s.data.map jsonEscapeChar)

mutual

/-- Python `json.dumps` with its default separators `', '` and `': '`. -/
def jsonDumps : Json → String
  | .str s => "\"" ++ jsonEscape s ++ "\""
  | .null => "null"
  | .arr xs => "[" ++ jsonDumpsJL xs ++ "]"
  | .obj kvs => "\x7b" ++ jsonDumpsJO kvs ++ "\x7d"

def jsonDumpsJL : JList → String
  | .nil => ""
  | .cons x .nil => jsonDumps x
  | .cons x xs => jsonDumps x ++ ", " ++ jsonDumpsJL xs

def jsonDumpsJO : JObj → String
  | .onil => ""
  | .ocons k v .onil => "\"" ++ jsonEscape k ++ "\": " ++ jsonDumps v
  | .ocons k v kvs => "\"" ++ jsonEscape k ++ "\": " ++ jsonDumps v ++ ", " ++ jsonDumpsJO kvs

end

/-- `set_` (terraform.py line 52): setting a value is not supported; raises
`salt.exceptions.NotImplemented` whatever the arguments. -/
def set_ (_args : List Json) (_kwargs : List (String × Json)) : Except PyErr Json :=
  Except.error PyErr.notImplemented

/-- `notimplmented_backend` (line 77): raises `salt.exceptions.NotImplemented`.
Note it takes no parameters, while the dispatch in `get` calls backends with
two arguments. -/
def notimplmented_backend : Except PyErr Json :=
  Except.error PyErr.notImplemented

/-- `resource.get('primary', {}).get('attributes', {})` (lines 203-209). -/
def getAttributes (resource : Json) : Except PyErr Json := do
  let p ← jGetD resource "primary" (.obj .onil)
  jGetD p "attributes" (.obj .onil)

/-- The attribute-extraction phase of `fetch_resource` (lines 200-209),
applied to the already-resolved `resources` list. -/
def attrPhase (attr : String) (resources : List Json) : Except PyErr Json := do
  if hasStar attr then
    -- pattern = re.compile(attr.replace('*','.+')); dict comprehension over
    -- the attribute names k with pattern.match(k)  (match, anchored at the
    -- start of the name)
    let pat := rcompile (pyReplace attr "*" ".+").data
    let maps ← resources.mapM (fun resource => do
      let attrs ← getAttributes resource
      let ks ← pyIterE attrs PyErr.typeError
      let keys ← ks.mapM asStr
      let pairs ← (keys.filter (fun k => rmatch pat k.data)).mapM (fun k => do
        let v ← jGetD attrs k .null
        Except.ok (k, v))
      Except.ok (Json.objL pairs))
    Except.ok (Json.arrL maps)
  else if hasComma attr then
    -- {k: ...attributes.get(k, None) for k in attr.split(',')}
    let maps ← resources.mapM (fun resource => do
      let attrs ← getAttributes resource
      let pairs ← (pySplitStr ',' attr).mapM (fun k => do
        let v ← jGetD attrs k .null
        Except.ok (k, v))
      Except.ok (Json.objL pairs))
    Except.ok (Json.arrL maps)
  else
    -- [ ...attributes.get(attr, None) for resource in resources]
    let vals ← resources.mapM (fun resource => do
      let attrs ← getAttributes resource
      jGetD attrs attr .null)
    Except.ok (Json.arrL vals)

/-- The resource-resolution phase of `fetch_resource` (lines 183-198):
resolve the joined `resource_key` against one module's `resources` dict —
wildcard (regex search over the keys), comma (each alternative substituted
and looked up, a miss appending `None`), or literal (lookup with a `{}`
default). -/
def resourcePhase (key_parts : List String) (data : Json) :
    Except PyErr (List Json) := do
  let resource_key := String.intercalate "." key_parts
  if hasStar resource_key then do
    -- [data.get(key) for key in data if pattern.search(key)]
    let pat := rcompile (pyReplace resource_key "*" ".+").data
    let ks ← pyIterE data PyErr.typeError
    let keys ← ks.mapM asStr
    (keys.filter (fun k => rsearch pat k.data)).mapM (fun k => jGet data k)
  else if hasComma resource_key then do
    -- split_part = [k for k in key_parts if ',' in k][0]
    let split_part ← listIdx (key_parts.filter (fun k => hasComma k)) 0
    -- resources.append(data.get(resource_key.replace(split_part, key_part)))
    -- (no default: a missing alternative appends None)
    (pySplitStr ',' split_part).mapM (fun key_part =>
      jGet data (pyReplace resource_key split_part key_part))
  else do
    -- [data.get(resource_key, {})]
    let r ← jGetD data resource_key (.obj .onil)
    Except.ok [r]

/-- `fetch_resource` (line 178): the resource-resolution phase followed by
the attribute-extraction phase. -/
def fetch_resource (key_parts : List String) (attr : String) (data : Json) :
    Except PyErr Json := do
  let resources ← resourcePhase key_parts data
  attrPhase attr resources

/-- Lines 143-154 of `parse_identifier`: the candidate module paths — from
a `module.`-qualified prefix (wildcard, or comma list of one-level module
names), or the default `['root']` — together with the remaining key parts. -/
def modulePaths (key_parts : List String) (data : Json) :
    Except PyErr (List String × List String) := do
  let k0 ← listIdx key_parts 0
  if k0 = "module" then do
    let k1 ← listIdx key_parts 1
    if hasStar k1 then do
      -- [part for part in data.get('modules') if pattern.search(part)]
      -- (no default: data.get('modules') is None when absent, and
      -- iterating None raises)
      let pat := rcompile (pyReplace k1 "*" ".+").data
      let modsJ ← match data with
        | .obj kvs => Except.ok ((lookupO kvs "modules").getD .null)
        | _ => Except.error PyErr.attributeError
      let parts ← pyIterE modsJ PyErr.typeError
      let strs ← parts.mapM asStr
      Except.ok (strs.filter (fun part => rsearch pat part.data), key_parts.drop 2)
    else
      -- ['root:{}'.format(part) for part in key_parts[1].split(',')]
      Except.ok ((pySplitStr ',' k1).map (fun part => "root:" ++ part), key_parts.drop 2)
  else
    Except.ok (["root"], key_parts)

/-- Lines 156-162 of `parse_identifier`: per candidate module path, read
the output value (missing pieces defaulting to `{}` and finally `''`) or
run `fetch_resource` on the module's `resources` dict, then flatten. -/
def resolvePhase (mod_paths key_parts : List String) (attr : String) (data : Json) :
    Except PyErr Json := do
  let k0' ← listIdx key_parts 0
  if k0' = "output" then do
    -- data.get('modules', {}).get(p, {}).get('outputs', {})
    --     .get(key_parts[1], {}).get('value', '')
    let k1' ← listIdx key_parts 1
    let result ← mod_paths.mapM (fun p => do
      let mods ← jGetD data "modules" (.obj .onil)
      let m ← jGetD mods p (.obj .onil)
      let outs ← jGetD m "outputs" (.obj .onil)
      let o ← jGetD outs k1' (.obj .onil)
      jGetD o "value" (.str ""))
    Except.ok (flatten (Json.arrL result))
  else do
    -- fetch_resource(key_parts, attr, data.get('modules', {}).get(p, {})
    --     .get('resources', {}))
    let result ← mod_paths.mapM (fun p => do
      let mods ← jGetD data "modules" (.obj .onil)
      let m ← jGetD mods p (.obj .onil)
      let res ← jGetD m "resources" (.obj .onil)
      fetch_resource key_parts attr res)
    Except.ok (flatten (Json.arrL result))

/-- `parse_identifier` (line 139): compute the candidate module paths, then
resolve outputs or resources per candidate, and flatten. -/
def parse_identifier (key_parts : List String) (attr : String) (data : Json) :
    Except PyErr Json := do
  let pr ← modulePaths key_parts data
  resolvePhase pr.1 pr.2 attr data

/-- One element of the iterable handed to `':'.join(...)`: `join` requires
every element to be a string and raises `TypeError` otherwise. -/
def pathElem (x : Json) : Except PyErr String :=
  match x with
  | .str s => Except.ok s
  | _ => Except.error PyErr.malformedState

/-- The `':'.join(...)` of the module-normalization loop (line 130).
`join` accepts any iterable of strings: a list of strings, a string (its
characters), or a dict (its keys); everything else raises `TypeError`, and
`join(None)` (a missing `path`) raises too. -/
def pyJoin (sep : String) (j : Json) : Except PyErr String :=
  match j with
  | .str s => Except.ok (String.intercalate sep (s.data.map (fun c => String.mk [c])))
  | .arr xs => do
    let strs ← xs.toList.mapM pathElem
    Except.ok (String.intercalate sep strs)
  | .obj kvs => Except.ok (String.intercalate sep (okeys kvs))
  | .null => Except.error PyErr.malformedState

/-- The `':'.join(k.get('path'))` key of one module object `k`:
`AttributeError` when `k` is not a dict. -/
def moduleKey (k : Json) : Except PyErr String := do
  let path ← match k with
    | .obj kvs => Except.ok ((lookupO kvs "path").getD .null)
    | _ => Except.error PyErr.malformedState
  pyJoin ":" path

/-- Lines 126-130 of `parse_tfstate_file`: read `data.get('modules')`,
then re-key the module list by its `:`-joined `path` into a fresh dict.
All exceptions this loop can raise (`TypeError`, `AttributeError`) are the
design's `MalformedStateError`. -/
def normalizeModules (data : Json) : Except PyErr JObj := do
  let modules_orig ← match data with
    | .obj kvs => Except.ok ((lookupO kvs "modules").getD .null)
    | _ => Except.error PyErr.malformedState
  let ks ← pyIterE modules_orig PyErr.malformedState
  ks.foldlM (fun acc k => do
    let pk ← moduleKey k
    Except.ok (updateO acc pk k)) JObj.onil

/-- `data.update({'modules': m})` after normalization. -/
def jSetModules (data : Json) (m : JObj) : Json :=
  match data with
  | .obj kvs => .obj (updateO kvs "modules" (.obj m))
  | j => j

/-- `parse_tfstate_file` (line 113), with the file I/O factored out: the
caller passes the parsed JSON document.  `key, attr = full_key.split('/')`
raises `ValueError` unless the split has exactly two parts; at the end,
`if type(result) == 'string'` compares the type object with the string
`'string'` — no type object equals a string (and the string type's name is
`'str'` anyway), so the comparison is always false and every result is
passed to `json.dumps`. -/
def parse_tfstate_file (full_key : String) (data : Json) : Except PyErr Json := do
  match pySplitStr '/' full_key with
  | [key, attr] =>
    let key_parts := pySplitStr '.' key
    let modulesMap ← normalizeModules data
    let result ← parse_identifier key_parts attr (jSetModules data modulesMap)
    if pyTypeName result = "string" then Except.ok result
    else Except.ok (.str (jsonDumps result))
  | _ => Except.error PyErr.invalidKey

/-- The entry the dispatch in `get` resolves for a backend name: the
handlers for `file` and `s3`, or — for any other name — the *string*
`'notimplmented_backend'` that `backends.get` returns as its default. -/
inductive DispatchEntry where
  | fileF
  | s3F
  | strDefault (s : String)
deriving DecidableEq

/-- `backends.get(profile.get('backend'), 'notimplmented_backend')`
(line 63): the dispatch table of `get` with its string default. -/
def backends_get (backend : String) : DispatchEntry :=
  if backend = "file" then .fileF
  else if backend = "s3" then .s3F
  else .strDefault "notimplmented_backend"

/-- `func(key, profile)` (line 69): `get_file` and `get_s3` both read the
state file of the profile and run `parse_tfstate_file` (the I/O is factored
out: `doc` is the parsed state file).  Calling the string default raises
`TypeError: 'str' object is not callable`. -/
def callBackend (d : DispatchEntry) (key : String) (doc : Json) : Except PyErr Json :=
  match d with
  | .fileF => parse_tfstate_file key doc
  | .s3F => parse_tfstate_file key doc
  | .strDefault _ => Except.error PyErr.notCallable

/-- The result of `get`: a value, or the `CommandExecutionError` that wraps
whatever exception the lookup raised (line 72). -/
inductive GetResult where
  | ok (v : Json)
  | commandExecutionError (cause : PyErr)
deriving DecidableEq

/-- `get` (line 59): dispatch on the profile's `backend`, and wrap any
exception in `salt.exceptions.CommandExecutionError`. -/
def get (backend : String) (key : String) (doc : Json) : GetResult :=
  match callBackend (backends_get backend) key doc with
  | Except.ok v => GetResult.ok v
  | Except.error e => GetResult.commandExecutionError e

/-- Modelled from the claim's words (C6): a module object is an object
carrying a `path` field. -/
def isModuleObject (m : Json) : Bool :=
  match m with
  | .obj mkvs => (lookupO mkvs "path").isSome
  | _ => false

/-- Modelled from the claim's words (C6): the `modules` field is a sequence
of module objects, each carrying a `path` field.  Used only to state which
documents count as well-formed / malformed; the code's behavior is given by
`normalizeModules`. -/
def modulesWellFormed (data : Json) : Bool :=
  match data with
  | .obj kvs =>
    match lookupO kvs "modules" with
    | some (.arr l) => l.toList.all isModuleObject
    | _ => false
  | _ => false

/-- The `modules` value is an iterable with no elements (an empty dict or
an empty string): the one malformed shape the normalization loop runs
through without raising. -/
def modulesEmptyIterable (data : Json) : Bool :=
  match data with
  | .obj kvs =>
    match lookupO kvs "modules" with
    | some (.obj .onil) => true
    | some (.str "") => true
    | _ => false
  | _ => false

/-- Extract, from a lookup result, the keys of a single resulting mapping:
`some` exactly when the result is a one-element list holding a dict. -/
def resultMapKeys : Except PyErr Json → Option (List String)
  | Except.ok (.arr (.cons (.obj m) .nil)) => some (okeys m)
  | _ => none

/-- Modelled from the spec's words (§4.4, claim C3): the attribute names a
wildcard attribute specifier selects under substring-*search* semantics.
Compared against what `attrPhase` (the code, which uses anchored
`re.match`) actually returns. -/
def specSearchAttrKeys (attr : String) (attrNames : List String) : List String :=
  attrNames.filter (fun k => rsearch (rcompile (pyReplace attr "*" ".+").data) k.data)

/-- A resource record with the given attributes mapping. -/
def mkResource (kvs : List (String × Json)) : Json :=
  Json.objL [("primary", Json.objL [("attributes", Json.objL kvs)])]

/-- The one-module document of the spec's end-to-end example: resource
`aws_instance.myhost`, attribute `public_ip = "1.2.3.4"`. -/
def doc1 : Json := Json.objL [("modules", Json.arrL [Json.objL [
  ("path", Json.arrL [Json.str "root"]),
  ("resources", Json.objL [("aws_instance.myhost",
    mkResource [("public_ip", Json.str "1.2.3.4")])])]])]

/-- A resource with one attribute `ip = "1.1.1.1"`. -/
def resA : Json := mkResource [("ip", Json.str "1.1.1.1")]

/-- A root-module document holding only the resource `aws_instance.a`. -/
def doc2 : Json := Json.objL [("modules", Json.arrL [Json.objL [
  ("path", Json.arrL [Json.str "root"]),
  ("resources", Json.objL [("aws_instance.a", resA)])]])]

/-- Document for the output example: module `root:a` with output
`myout = "x"`, module `root:b` with no outputs. -/
def doc4 : Json := Json.objL [("modules", Json.arrL [
  Json.objL [("path", Json.arrL [Json.str "root", Json.str "a"]),
             ("outputs", Json.objL [("myout", Json.objL [("value", Json.str "x")])])],
  Json.objL [("path", Json.arrL [Json.str "root", Json.str "b"])]])]

/-- A document with one root module that has no resources mapping. -/
def docRootEmpty : Json :=
  Json.objL [("modules", Json.arrL [Json.objL [("path", Json.arrL [Json.str "root"])]])]

/-- A document with two modules `root:a` and `root:b`, neither of which has
a resources mapping. -/
def doc10 : Json := Json.objL [("modules", Json.arrL [
  Json.objL [("path", Json.arrL [Json.str "root", Json.str "a"])],
  Json.objL [("path", Json.arrL [Json.str "root", Json.str "b"])]])]

mutual

theorem flatten_flatten : (j : Json) → flatten (flatten j) = flatten j
  | .str _ => rfl
  | .null => rfl
  | .obj _ => rfl
  | .arr .nil => rfl
  | .arr (.cons x .nil) => flatten_flatten x
  | .arr (.cons x (.cons y t)) => by
    show flatten (.arr (.cons (flatten x) (.cons (flatten y) (flattenJL t)))) = _
    show Json.arr (.cons (flatten (flatten x))
      (.cons (flatten (flatten y)) (flattenJL (flattenJL t)))) = _
    rw [flatten_flatten x, flatten_flatten y, flattenJL_flattenJL t]
    rfl

theorem flattenJL_flattenJL : (l : JList) → flattenJL (flattenJL l) = flattenJL l
  | .nil => rfl
  | .cons x xs => by
    show JList.cons (flatten (flatten x)) (flattenJL (flattenJL xs)) = _
    rw [flatten_flatten x, flattenJL_flattenJL xs]
    rfl

end

theorem okeys_ofList (l : List (String × Json)) : okeys (JObj.ofList l) = l.map Prod.fst := by
  induction l with
  | nil => rfl
  | cons a t ih => cases a; simp [JObj.ofList, okeys, ih]

theorem mapM_ok_fun {α β : Type} (f : α → β) (l : List α) :
    (l.mapM fun a => (Except.ok (f a) : Except PyErr β)) = Except.ok (l.map f) := by
  induction l with
  | nil => rfl
  | cons a t ih => rw [List.mapM_cons, ih]; rfl

theorem mapM_asStr_map_str (l : List String) :
    ((l.map Json.str).mapM asStr) = Except.ok l := by
  induction l with
  | nil => rfl
  | cons a t ih => rw [List.map_cons, List.mapM_cons, ih]; rfl

theorem pySplit_ne_nil (sep : Char) (s : List Char) : pySplit sep s ≠ [] := by
  cases s with
  | nil => simp [pySplit]
  | cons c rest =>
    unfold pySplit
    split
    · simp
    · split <;> simp

theorem pySplit_length (sep : Char) (s : List Char) :
    (pySplit sep s).length = s.count sep + 1 := by
  induction s with
  | nil => simp [pySplit]
  | cons c rest ih =>
    unfold pySplit
    by_cases hc : c = sep
    · subst hc
      simp [List.count_cons, ih]
    · rw [if_neg hc]
      cases hps : pySplit sep rest with
      | nil => exact absurd hps (pySplit_ne_nil sep rest)
      | cons h t =>
        have : (pySplit sep rest).length = rest.count sep + 1 := ih
        rw [hps] at this
        simp only [List.length_cons] at this ⊢
        rw [this]
        simp [List.count_cons, hc]

/-- The computation never fails with the key-format error: every failure
site after the key split raises a different error kind. -/
def noIK {α : Type} (x : Except PyErr α) : Prop := x ≠ Except.error PyErr.invalidKey

theorem noIK_ok {α : Type} (a : α) : noIK (Except.ok a) := by simp [noIK]

theorem noIK_error {α : Type} {e : PyErr} (h : e ≠ PyErr.invalidKey) :
    noIK (Except.error e : Except PyErr α) := by simp [noIK, h]

theorem noIK_bind {α β : Type} {x : Except PyErr α} {f : α → Except PyErr β}
    (hx : noIK x) (hf : ∀ a, noIK (f a)) : noIK (x >>= f) := by
  cases x with
  | ok a => exact hf a
  | error e =>
    refine noIK_error (fun he => hx ?_)
    rw [he]

theorem noIK_mapM {α β : Type} {f : α → Except PyErr β} {l : List α}
    (h : ∀ a ∈ l, noIK (f a)) : noIK (l.mapM f) := by
  induction l with
  | nil => exact noIK_ok []
  | cons a t ih =>
    rw [List.mapM_cons]
    refine noIK_bind (h a (by simp)) (fun x => ?_)
    refine noIK_bind (ih (fun b hb => h b (by simp [hb]))) (fun xs => ?_)
    exact noIK_ok _

theorem noIK_foldlM {α β : Type} {f : β → α → Except PyErr β} {l : List α}
    (h : ∀ b a, noIK (f b a)) : (init : β) → noIK (l.foldlM f init) := by
  induction l with
  | nil => exact fun init => noIK_ok init
  | cons a t ih =>
    intro init
    rw [List.foldlM_cons]
    exact noIK_bind (h init a) (fun b => ih b)

theorem noIK_jGetD (j : Json) (k : String) (d : Json) : noIK (jGetD j k d) := by
  unfold jGetD
  split
  · exact noIK_ok _
  · exact noIK_error (by simp)

theorem noIK_jGet (j : Json) (k : String) : noIK (jGet j k) := noIK_jGetD j k .null

theorem noIK_listIdx (xs : List String) (i : Nat) : noIK (listIdx xs i) := by
  unfold listIdx
  split
  · exact noIK_ok _
  · exact noIK_error (by simp)

theorem noIK_pyIterE (j : Json) {e : PyErr} (h : e ≠ PyErr.invalidKey) :
    noIK (pyIterE j e) := by
  unfold pyIterE
  split
  · exact noIK_ok _
  · exact noIK_error h

theorem noIK_asStr (j : Json) : noIK (asStr j) := by
  unfold asStr
  split
  · exact noIK_ok _
  · exact noIK_error (by simp)

theorem noIK_pyJoin (sep : String) (j : Json) : noIK (pyJoin sep j) := by
  unfold pyJoin
  cases j with
  | str s => exact noIK_ok _
  | null => exact noIK_error (by simp)
  | obj kvs => exact noIK_ok _
  | arr xs =>
    refine noIK_bind (noIK_mapM (fun a _ => ?_)) (fun strs => noIK_ok _)
    unfold pathElem
    split
    · exact noIK_ok _
    · exact noIK_error (by simp)

theorem noIK_moduleKey (k : Json) : noIK (moduleKey k) := by
  unfold moduleKey
  cases k with
  | obj kvs => exact noIK_bind (noIK_ok _) (fun path => noIK_pyJoin ":" path)
  | str s => exact noIK_bind (noIK_error (by simp)) (fun path => noIK_pyJoin ":" path)
  | null => exact noIK_bind (noIK_error (by simp)) (fun path => noIK_pyJoin ":" path)
  | arr xs => exact noIK_bind (noIK_error (by simp)) (fun path => noIK_pyJoin ":" path)

theorem noIK_normalizeModules (data : Json) : noIK (normalizeModules data) := by
  unfold normalizeModules
  have hrest : ∀ x : Json, noIK (pyIterE x PyErr.malformedState >>= fun ks =>
      ks.foldlM (fun acc k => moduleKey k >>= fun pk => Except.ok (updateO acc pk k))
        JObj.onil) := by
    intro x
    refine noIK_bind (noIK_pyIterE x (by simp)) (fun ks => ?_)
    exact noIK_foldlM (fun b a => noIK_bind (noIK_moduleKey a) (fun pk => noIK_ok _)) _
  cases data with
  | obj kvs => exact noIK_bind (noIK_ok _) (fun m => hrest m)
  | str s => exact noIK_bind (noIK_error (by simp)) (fun m => hrest m)
  | null => exact noIK_bind (noIK_error (by simp)) (fun m => hrest m)
  | arr xs => exact noIK_bind (noIK_error (by simp)) (fun m => hrest m)

theorem noIK_getAttributes (resource : Json) : noIK (getAttributes resource) := by
  unfold getAttributes
  exact noIK_bind (noIK_jGetD _ _ _) (fun p => noIK_jGetD _ _ _)

theorem noIK_attrPhase (attr : String) (resources : List Json) :
    noIK (attrPhase attr resources) := by
  unfold attrPhase
  split
  · refine noIK_bind (noIK_mapM (fun r _ => ?_)) (fun maps => noIK_ok _)
    refine noIK_bind (noIK_getAttributes r) (fun attrs => ?_)
    refine noIK_bind (noIK_pyIterE attrs (by simp)) (fun ks => ?_)
    refine noIK_bind (noIK_mapM (fun a _ => noIK_asStr a)) (fun keys => ?_)
    refine noIK_bind (noIK_mapM (fun k _ => ?_)) (fun pairs => noIK_ok _)
    exact noIK_bind (noIK_jGetD _ _ _) (fun v => noIK_ok _)
  · split
    · refine noIK_bind (noIK_mapM (fun r _ => ?_)) (fun maps => noIK_ok _)
      refine noIK_bind (noIK_getAttributes r) (fun attrs => ?_)
      refine noIK_bind (noIK_mapM (fun k _ => ?_)) (fun pairs => noIK_ok _)
      exact noIK_bind (noIK_jGetD _ _ _) (fun v => noIK_ok _)
    · refine noIK_bind (noIK_mapM (fun r _ => ?_)) (fun vals => noIK_ok _)
      exact noIK_bind (noIK_getAttributes r) (fun attrs => noIK_jGetD _ _ _)

theorem noIK_resourcePhase (key_parts : List String) (data : Json) :
    noIK (resourcePhase key_parts data) := by
  unfold resourcePhase
  dsimp only
  split
  · refine noIK_bind (noIK_pyIterE data (by simp)) (fun ks => ?_)
    refine noIK_bind (noIK_mapM (fun a _ => noIK_asStr a)) (fun keys => ?_)
    exact noIK_mapM (fun k _ => noIK_jGet data k)
  · split
    · refine noIK_bind (noIK_listIdx _ 0) (fun split_part => ?_)
      exact noIK_mapM (fun k _ => noIK_jGet data _)
    · exact noIK_bind (noIK_jGetD _ _ _) (fun r => noIK_ok _)

theorem noIK_fetch_resource (key_parts : List String) (attr : String) (data : Json) :
    noIK (fetch_resource key_parts attr data) := by
  unfold fetch_resource
  exact noIK_bind (noIK_resourcePhase key_parts data)
    (fun resources => noIK_attrPhase attr resources)

theorem noIK_modulePaths (key_parts : List String) (data : Json) :
    noIK (modulePaths key_parts data) := by
  unfold modulePaths
  refine noIK_bind (noIK_listIdx _ 0) (fun k0 => ?_)
  split
  · refine noIK_bind (noIK_listIdx _ 1) (fun k1 => ?_)
    split
    · have hrest : ∀ x : Json, noIK (pyIterE x PyErr.typeError >>= fun parts =>
          parts.mapM asStr >>= fun strs =>
            Except.ok (strs.filter (fun part =>
              rsearch (rcompile (pyReplace k1 "*" ".+").data) part.data),
              key_parts.drop 2)) := by
        intro x
        refine noIK_bind (noIK_pyIterE x (by simp)) (fun parts => ?_)
        exact noIK_bind (noIK_mapM (fun a _ => noIK_asStr a)) (fun strs => noIK_ok _)
      cases data with
      | obj kvs => exact noIK_bind (noIK_ok _) (fun m => hrest m)
      | str s => exact noIK_bind (noIK_error (by simp)) (fun m => hrest m)
      | null => exact noIK_bind (noIK_error (by simp)) (fun m => hrest m)
      | arr xs => exact noIK_bind (noIK_error (by simp)) (fun m => hrest m)
    · exact noIK_ok _
  · exact noIK_ok _

theorem noIK_resolvePhase (mod_paths key_parts : List String) (attr : String)
    (data : Json) : noIK (resolvePhase mod_paths key_parts attr data) := by
  unfold resolvePhase
  refine noIK_bind (noIK_listIdx _ 0) (fun k0' => ?_)
  split
  · refine noIK_bind (noIK_listIdx _ 1) (fun k1' => ?_)
    refine noIK_bind (noIK_mapM (fun p _ => ?_)) (fun result => noIK_ok _)
    refine noIK_bind (noIK_jGetD _ _ _) (fun mods => ?_)
    refine noIK_bind (noIK_jGetD _ _ _) (fun m => ?_)
    refine noIK_bind (noIK_jGetD _ _ _) (fun outs => ?_)
    exact noIK_bind (noIK_jGetD _ _ _) (fun o => noIK_jGetD _ _ _)
  · refine noIK_bind (noIK_mapM (fun p _ => ?_)) (fun result => noIK_ok _)
    refine noIK_bind (noIK_jGetD _ _ _) (fun mods => ?_)
    refine noIK_bind (noIK_jGetD _ _ _) (fun m => ?_)
    exact noIK_bind (noIK_jGetD _ _ _) (fun res => noIK_fetch_resource key_parts attr res)

theorem noIK_parse_identifier (key_parts : List String) (attr : String) (data : Json) :
    noIK (parse_identifier key_parts attr data) := by
  unfold parse_identifier
  exact noIK_bind (noIK_modulePaths key_parts data)
    (fun pr => noIK_resolvePhase pr.1 pr.2 attr data)
theorem pathConv_classify (xs : List Json) :
    (∃ l : List String, xs.mapM pathElem = Except.ok l) ∨
    xs.mapM pathElem = Except.error PyErr.malformedState := by
  induction xs with
  | nil => exact Or.inl ⟨[], rfl⟩
  | cons x t ih =>
    rw [List.mapM_cons]
    cases x with
    | str s =>
      rcases ih with ⟨l, hl⟩ | hl
      · exact Or.inl ⟨s :: l, by rw [show pathElem (.str s) = Except.ok s from rfl, hl]; rfl⟩
      · exact Or.inr (by rw [show pathElem (.str s) = Except.ok s from rfl, hl]; rfl)
    | null => exact Or.inr rfl
    | arr ys => exact Or.inr rfl
    | obj kvs => exact Or.inr rfl

theorem pyJoin_classify (sep : String) (j : Json) :
    (∃ s, pyJoin sep j = Except.ok s) ∨ pyJoin sep j = Except.error PyErr.malformedState := by
  cases j with
  | str s => exact Or.inl ⟨_, rfl⟩
  | obj kvs => exact Or.inl ⟨_, rfl⟩
  | null => exact Or.inr rfl
  | arr xs =>
    rcases pathConv_classify xs.toList with ⟨l, hl⟩ | hl
    · refine Or.inl ⟨sep.intercalate l, ?_⟩
      show (xs.toList.mapM pathElem >>= fun strs => Except.ok (sep.intercalate strs)) = _
      rw [hl]
      rfl
    · refine Or.inr ?_
      show (xs.toList.mapM pathElem >>= fun strs => Except.ok (sep.intercalate strs)) = _
      rw [hl]
      rfl

theorem moduleKey_classify (k : Json) :
    (∃ s, moduleKey k = Except.ok s) ∨ moduleKey k = Except.error PyErr.malformedState := by
  cases k with
  | obj kvs =>
    rcases pyJoin_classify ":" ((lookupO kvs "path").getD Json.null) with ⟨s, hs⟩ | hs
    · exact Or.inl ⟨s, hs⟩
    · exact Or.inr hs
  | str s => exact Or.inr rfl
  | null => exact Or.inr rfl
  | arr xs => exact Or.inr rfl

theorem moduleKey_not_module {m : Json} (h : isModuleObject m = false) :
    moduleKey m = Except.error PyErr.malformedState := by
  cases m with
  | str s => rfl
  | null => rfl
  | arr xs => rfl
  | obj mkvs =>
    simp only [isModuleObject] at h
    have hl : lookupO mkvs "path" = none := by
      cases hx : lookupO mkvs "path" with
      | none => rfl
      | some v => rw [hx] at h; simp at h
    show (Except.ok ((lookupO mkvs "path").getD Json.null) >>= fun path =>
      pyJoin ":" path) = _
    rw [hl]
    rfl

theorem foldNorm_error {l : List Json}
    (h : ∃ k ∈ l, moduleKey k = Except.error PyErr.malformedState) (acc : JObj) :
    l.foldlM (fun acc k => moduleKey k >>= fun pk => Except.ok (updateO acc pk k)) acc =
      Except.error PyErr.malformedState := by
  induction l generalizing acc with
  | nil => obtain ⟨k, hk, _⟩ := h; exact absurd hk (List.not_mem_nil k)
  | cons a t ih =>
    rw [List.foldlM_cons]
    obtain ⟨k, hk, hkerr⟩ := h
    rcases List.mem_cons.mp hk with hka | hkt
    · subst hka
      rw [hkerr]
      rfl
    · rcases moduleKey_classify a with ⟨s, hs⟩ | hs
      · rw [hs]
        exact ih ⟨k, hkt, hkerr⟩ _
      · rw [hs]
        rfl

theorem normalizeModules_malformed {data : Json}
    (hwf : modulesWellFormed data = false)
    (hne : modulesEmptyIterable data = false) :
    normalizeModules data = Except.error PyErr.malformedState := by
  cases data with
  | str s => rfl
  | null => rfl
  | arr xs => rfl
  | obj kvs =>
    simp only [modulesWellFormed] at hwf
    simp only [modulesEmptyIterable] at hne
    show (Except.ok ((lookupO kvs "modules").getD Json.null) >>= fun modules_orig =>
      pyIterE modules_orig PyErr.malformedState >>= fun ks =>
      ks.foldlM (fun acc k => moduleKey k >>= fun pk =>
        Except.ok (updateO acc pk k)) JObj.onil) = _
    cases hl : lookupO kvs "modules" with
    | none => rfl
    | some v =>
      rw [hl] at hwf hne
      cases v with
      | null => rfl
      | str s =>
        cases hs : s.data with
        | nil =>
          exfalso
          have hse : s = "" := by
            cases s with
            | mk d => simp only at hs; rw [hs]
          rw [hse] at hne
          simp at hne
        | cons c cs =>
          show (pyIterE (.str s) PyErr.malformedState >>= fun ks =>
            ks.foldlM (fun acc k => moduleKey k >>= fun pk =>
              Except.ok (updateO acc pk k)) JObj.onil) = _
          rw [show pyIterE (.str s) PyErr.malformedState =
              Except.ok (s.data.map (fun c => Json.str (String.mk [c]))) from rfl]
          rw [hs]
          show ((Json.str (String.mk [c]) :: cs.map (fun c => Json.str (String.mk [c]))).foldlM
            (fun acc k => moduleKey k >>= fun pk => Except.ok (updateO acc pk k))
            JObj.onil) = _
          rw [List.foldlM_cons]
          rfl
      | obj mkvs =>
        cases mkvs with
        | onil => simp at hne
        | ocons k0 v0 t =>
          show (pyIterE (.obj (.ocons k0 v0 t)) PyErr.malformedState >>= fun ks =>
            ks.foldlM (fun acc k => moduleKey k >>= fun pk =>
              Except.ok (updateO acc pk k)) JObj.onil) = _
          rw [show pyIterE (.obj (.ocons k0 v0 t)) PyErr.malformedState =
              Except.ok ((okeys (.ocons k0 v0 t)).map Json.str) from rfl]
          show ((Json.str k0 :: (okeys t).map Json.str).foldlM
            (fun acc k => moduleKey k >>= fun pk => Except.ok (updateO acc pk k))
            JObj.onil) = _
          rw [List.foldlM_cons]
          rfl
      | arr l =>
        have hbad : ∃ m ∈ l.toList, moduleKey m = Except.error PyErr.malformedState := by
          obtain ⟨m, hm, hmf⟩ := List.all_eq_false.mp hwf
          exact ⟨m, hm, moduleKey_not_module (by simpa using hmf)⟩
        show (pyIterE (.arr l) PyErr.malformedState >>= fun ks =>
          ks.foldlM (fun acc k => moduleKey k >>= fun pk =>
            Except.ok (updateO acc pk k)) JObj.onil) = _
        rw [show pyIterE (.arr l) PyErr.malformedState = Except.ok l.toList from rfl]
        show (l.toList.foldlM (fun acc k => moduleKey k >>= fun pk =>
          Except.ok (updateO acc pk k)) JObj.onil) = _
        exact foldNorm_error hbad JObj.onil

theorem mapM_okish {α β : Type} {g : α → Except PyErr β} (f : α → β)
    (hg : ∀ a, g a = Except.ok (f a)) (l : List α) :
    l.mapM g = Except.ok (l.map f) := by
  induction l with
  | nil => rfl
  | cons a t ih =>
    rw [List.mapM_cons, hg a, ih]
    rfl

theorem attrPhase_nil (attr : String) : attrPhase attr [] = Except.ok (Json.arrL []) := by
  unfold attrPhase
  split
  · rfl
  · split
    · rfl
    · rfl

theorem resourcePhase_no_match (key_parts : List String) (kvs : List (String × Json))
    (hstar : hasStar (String.intercalate "." key_parts) = true)
    (hnone : ∀ k ∈ kvs.map Prod.fst,
      rsearch (rcompile (pyReplace (String.intercalate "." key_parts) "*" ".+").data)
        k.data = false) :
    resourcePhase key_parts (Json.objL kvs) = Except.ok [] := by
  unfold resourcePhase
  dsimp only
  rw [if_pos hstar]
  rw [show pyIterE (Json.objL kvs) PyErr.typeError =
      Except.ok (((kvs.map Prod.fst)).map Json.str) from by
    show Except.ok ((okeys (JObj.ofList kvs)).map Json.str) = _
    rw [okeys_ofList]]
  show ((kvs.map Prod.fst).map Json.str).mapM asStr >>= (fun keys =>
    (keys.filter (fun k => rsearch (rcompile (pyReplace
      (String.intercalate "." key_parts) "*" ".+").data) k.data)).mapM
      (fun k => jGet (Json.objL kvs) k)) = _
  rw [mapM_asStr_map_str]
  show ((kvs.map Prod.fst).filter (fun k => rsearch (rcompile (pyReplace
    (String.intercalate "." key_parts) "*" ".+").data) k.data)).mapM
      (fun k => jGet (Json.objL kvs) k) = _
  rw [show (kvs.map Prod.fst).filter (fun k => rsearch (rcompile (pyReplace
      (String.intercalate "." key_parts) "*" ".+").data) k.data) = [] from by
    rw [List.filter_eq_nil_iff]
    intro a ha
    simp [hnone a ha]]
  rfl

theorem okBind {α β : Type} (a : α) (f : α → Except PyErr β) :
    (Except.ok a >>= f) = f a := rfl

theorem errBind {α β : Type} (e : PyErr) (f : α → Except PyErr β) :
    ((Except.error e : Except PyErr α) >>= f) = Except.error e := rfl

theorem pureIsOk {α : Type} (a : α) : (pure a : Except PyErr α) = Except.ok a := rfl

theorem mapM_pairs (kvs : List (String × Json)) (l : List String) :
    l.mapM (fun k => jGetD (Json.objL kvs) k Json.null >>= fun v => Except.ok (k, v)) =
      Except.ok (l.map (fun k => (k, (lookupO (JObj.ofList kvs) k).getD Json.null))) :=
  mapM_okish _ (fun _ => rfl) l

theorem attrPhase_star_singleton (attr : String) (kvs : List (String × Json))
    (h : hasStar attr = true) :
    attrPhase attr [mkResource kvs] =
      Except.ok (Json.arrL [Json.objL
        (((kvs.map Prod.fst).filter
            (fun k => rmatch (rcompile (pyReplace attr "*" ".+").data) k.data)).map
          (fun k => (k, (lookupO (JObj.ofList kvs) k).getD Json.null)))]) := by
  unfold attrPhase
  rw [if_pos h]
  dsimp only
  rw [List.mapM_cons, List.mapM_nil]
  rw [show getAttributes (mkResource kvs) = Except.ok (Json.objL kvs) from rfl]
  simp only [okBind, pureIsOk]
  rw [show pyIterE (Json.objL kvs) PyErr.typeError =
      Except.ok ((kvs.map Prod.fst).map Json.str) from by
    show Except.ok ((okeys (JObj.ofList kvs)).map Json.str) = _
    rw [okeys_ofList]]
  simp only [okBind]
  rw [mapM_asStr_map_str]
  simp only [okBind]
  rw [mapM_pairs]
  simp only [okBind, pureIsOk]

/-- C1.  The spec's end-to-end example run through the code: querying
`aws_instance.myhost/public_ip` against the one-module document.  The claim
says the plain string `"1.2.3.4"` passes through without JSON encoding, but
`type(result) == 'string'` compares a type object against the string
`'string'` (never true — the string type is named `str`), so the code
JSON-encodes the string and returns `"\"1.2.3.4\""` (quote characters
included). -/
theorem C1_code_eval :
    parse_tfstate_file "aws_instance.myhost/public_ip" doc1 =
      Except.ok (Json.str "\"1.2.3.4\"") := rfl

/-- C2.  A comma query with a missing alternative: the resolution phase
does append the `None` placeholder, but the attribute-extraction phase then
calls `.get` on that `None` and raises `AttributeError`, so the lookup does
not complete with a null entry — it aborts.  Shown both at the
`fetch_resource` level and end to end. -/
theorem C2_code_eval :
    fetch_resource ["aws_instance", "a,b"] "ip" (Json.objL [("aws_instance.a", resA)]) =
      Except.error PyErr.attributeError ∧
    resourcePhase ["aws_instance", "a,b"] (Json.objL [("aws_instance.a", resA)]) =
      Except.ok [resA, Json.null] ∧
    parse_tfstate_file "aws_instance.a,b/ip" doc2 = Except.error PyErr.attributeError :=
  ⟨rfl, rfl, rfl⟩

/-- C3, counterexample.  The claim says the wildcard attribute extractor
uses substring-*search* semantics: on a resource whose only attribute is
`zip2`, the pattern `ip*` search-matches `zip2` (at offset 1), so the claim
predicts the mapping `{zip2: v}` — but the code uses `re.match` (anchored
at the start), matches nothing and returns an empty mapping. -/
theorem C3_counterexample :
    specSearchAttrKeys "ip*" ["zip2"] = ["zip2"] ∧
    resultMapKeys (fetch_resource ["r1"] "ip*"
      (Json.objL [("r1", mkResource [("zip2", Json.str "v")])])) = some [] := ⟨rfl, rfl⟩

/-- C3, amended.  For every resolved resource record and every attribute
specifier containing `*`, the extractor regex-matches the attribute names
*anchored at the start* (`re.match`: `*` → `.+`, no end anchor), and the
result is a mapping whose keys are exactly the attribute names so matched —
a mapping even when only a single attribute matches, never a bare scalar. -/
theorem C3_amended (attr : String) (kvs : List (String × Json))
    (h : hasStar attr = true) :
    resultMapKeys (attrPhase attr [mkResource kvs]) =
      some ((kvs.map Prod.fst).filter
        (fun k => rmatch (rcompile (pyReplace attr "*" ".+").data) k.data)) := by
  rw [attrPhase_star_singleton attr kvs h]
  show some (okeys (JObj.ofList (((kvs.map Prod.fst).filter
    (fun k => rmatch (rcompile (pyReplace attr "*" ".+").data) k.data)).map
      (fun k => (k, (lookupO (JObj.ofList kvs) k).getD Json.null))))) = _
  rw [okeys_ofList, List.map_map]
  rw [show (Prod.fst ∘ fun k : String =>
    (k, (lookupO (JObj.ofList kvs) k).getD Json.null)) = id from rfl]
  rw [List.map_id]

/-- C3, witness: the wildcard `public*` on a resource with the single
attribute `public_ip` yields the one-entry mapping (not a bare scalar). -/
theorem C3_amended_witness :
    resultMapKeys (attrPhase "public*" [mkResource [("public_ip", Json.str "1.2.3.4")]]) =
      some ["public_ip"] :=
  C3_amended "public*" [("public_ip", Json.str "1.2.3.4")] rfl

/-- C4, counterexample.  The claim's key `module.a,b/output/myout` contains
two `/`, so the key split raises before any module resolution happens: the
lookup fails with the key-format error instead of returning `["x", null]`. -/
theorem C4_counterexample :
    parse_tfstate_file "module.a,b/output/myout" doc4 = Except.error PyErr.invalidKey := rfl

/-- C4, amended.  With the output query written in the lookup's
`<identifier>/<attribute>` format — `module.a,b.output.myout/<anything>` —
the lookup returns one entry per candidate module path in query order, the
missing output contributing the *empty string* placeholder (the code's
`.get('value', '')` default), not null: the core result is `["x", ""]`,
serialized by the boundary to `["x", ""]`. -/
theorem C4_amended :
    (normalizeModules doc4 >>= fun m =>
      parse_identifier ["module", "a,b", "output", "myout"] "x" (jSetModules doc4 m)) =
      Except.ok (Json.arrL [Json.str "x", Json.str ""]) ∧
    parse_tfstate_file "module.a,b.output.myout/x" doc4 =
      Except.ok (Json.str "[\"x\", \"\"]") := ⟨rfl, rfl⟩

/-- C5.  For every raw key string (and every document), the lookup fails
with the key-format error (`InvalidKeyError`, the `ValueError` of the
two-name unpacking) if and only if the key does not contain exactly one
`/`; keys with exactly one `/` proceed past this check, and no later
failure site raises this error kind. -/
theorem C5_invalid_key_iff (full_key : String) (data : Json) :
    parse_tfstate_file full_key data = Except.error PyErr.invalidKey ↔
      full_key.data.count '/' ≠ 1 := by
  have hlen : (pySplitStr '/' full_key).length = full_key.data.count '/' + 1 := by
    simp [pySplitStr, pySplit_length]
  constructor
  · intro h hcount
    rw [hcount] at hlen
    obtain ⟨k, a, hs⟩ := List.length_eq_two.mp hlen
    have hni : noIK (parse_tfstate_file full_key data) := by
      unfold parse_tfstate_file
      rw [hs]
      refine noIK_bind (noIK_normalizeModules data) (fun m => ?_)
      refine noIK_bind (noIK_parse_identifier _ _ _) (fun r => ?_)
      split
      · exact noIK_ok _
      · exact noIK_ok _
    exact hni h
  · intro hcount
    rcases hs : pySplitStr '/' full_key with _ | ⟨x, _ | ⟨y, _ | ⟨z, t⟩⟩⟩
    · unfold parse_tfstate_file
      rw [hs]
    · unfold parse_tfstate_file
      rw [hs]
    · exfalso
      rw [hs] at hlen
      simp only [List.length_cons, List.length_nil] at hlen
      omega
    · unfold parse_tfstate_file
      rw [hs]

/-- C6, counterexample.  A document whose `modules` field is an empty
mapping is malformed (not a sequence of module objects), yet the
normalization loop iterates zero keys and succeeds, and the whole lookup
completes (here returning the serialized `null`) instead of failing with
`MalformedStateError`. -/
theorem C6_counterexample :
    modulesWellFormed (Json.objL [("modules", Json.objL [])]) = false ∧
    parse_tfstate_file "a.b/c" (Json.objL [("modules", Json.objL [])]) =
      Except.ok (Json.str "null") := ⟨rfl, rfl⟩

/-- C6, amended.  For every well-split key and every document whose
`modules` field is absent or malformed (not a sequence of module objects
with `path` fields), the lookup fails with `MalformedStateError` — except
when the malformed `modules` value is an *empty iterable* (an empty mapping
or an empty string), in which case the loop body never runs, normalization
yields an empty modules mapping, and the lookup proceeds. -/
theorem C6_amended (full_key : String) (data : Json)
    (hkey : full_key.data.count '/' = 1)
    (hwf : modulesWellFormed data = false)
    (hne : modulesEmptyIterable data = false) :
    parse_tfstate_file full_key data = Except.error PyErr.malformedState := by
  have hlen : (pySplitStr '/' full_key).length = 2 := by
    simp [pySplitStr, pySplit_length, hkey]
  obtain ⟨k, a, hs⟩ := List.length_eq_two.mp hlen
  unfold parse_tfstate_file
  rw [hs]
  show (normalizeModules data >>= fun modulesMap =>
    parse_identifier (pySplitStr '.' k) a (jSetModules data modulesMap) >>= fun result =>
    if pyTypeName result = "string" then Except.ok result
    else Except.ok (.str (jsonDumps result))) = _
  rw [normalizeModules_malformed hwf hne]
  rfl

/-- C6, witness: a document whose `modules` field is `null` (absent shape)
fails with `MalformedStateError`. -/
theorem C6_amended_witness :
    parse_tfstate_file "a/b" (Json.objL [("modules", Json.null)]) =
      Except.error PyErr.malformedState :=
  C6_amended "a/b" (Json.objL [("modules", Json.null)]) rfl rfl rfl

/-- C7.  For every profile backend that is neither `file` nor `s3`, the
dispatch default is the *string* `'notimplmented_backend'` (the quotes are
in the source), so calling it raises `TypeError: 'str' object is not
callable` — wrapped into `CommandExecutionError` — rather than the
`NotImplemented` "unimplemented backend" error the claim describes (which
is unreachable; `notimplmented_backend` also takes no arguments while the
dispatch passes two). -/
theorem C7_code_eval (backend : String) (hfile : backend ≠ "file")
    (hs3 : backend ≠ "s3") (key : String) (doc : Json) :
    get backend key doc = GetResult.commandExecutionError PyErr.notCallable := by
  show (match callBackend (backends_get backend) key doc with
    | Except.ok v => GetResult.ok v
    | Except.error e => GetResult.commandExecutionError e) = _
  unfold callBackend backends_get
  rw [if_neg hfile, if_neg hs3]

/-- C7, witness: the unknown backend `gcs`. -/
theorem C7_code_eval_witness :
    get "gcs" "aws_instance.myhost/public_ip" doc1 =
      GetResult.commandExecutionError PyErr.notCallable :=
  C7_code_eval "gcs" (by decide) (by decide) "aws_instance.myhost/public_ip" doc1

/-- C8.  Flattening is idempotent: applying the result flattener to an
already-flattened value returns it unchanged, for every value. -/
theorem C8_flatten_idempotent (j : Json) : flatten (flatten j) = flatten j :=
  flatten_flatten j

/-- C9.  The set operation fails with `salt.exceptions.NotImplemented`
(the design's `UnsupportedOperationError`) whatever its arguments; being a
pure function of its arguments, it touches no state. -/
theorem C9_set_unsupported (args : List Json) (kwargs : List (String × Json)) :
    set_ args kwargs = Except.error PyErr.notImplemented := rfl

/-- C10, counterexample.  With *two* candidate modules (`module.a,b.…`)
and a wildcard resource key matching nothing, each module contributes an
empty list, so the lookup returns `[[], []]` — not an empty list (though
indeed neither null nor an error). -/
theorem C10_counterexample :
    parse_tfstate_file "module.a,b.aws_*/ip" doc10 = Except.ok (Json.str "[[], []]") ∧
    Json.str "[[], []]" ≠ Json.str "[]" ∧ Json.str "[[], []]" ≠ Json.null :=
  ⟨rfl, by decide, by decide⟩

/-- C10, amended.  A wildcard resource query matching no resource key
yields the empty match set in the resolution phase, and `fetch_resource`
returns an empty list for that module (never null, never an error); with
exactly one candidate module (the unqualified `root` case) the whole
lookup therefore returns an empty list, serialized `[]` — while each
additional candidate module contributes its own empty list. -/
theorem C10_amended :
    (∀ (key_parts : List String) (attr : String) (kvs : List (String × Json)),
        hasStar (String.intercalate "." key_parts) = true →
        (∀ k ∈ kvs.map Prod.fst,
          rsearch (rcompile (pyReplace (String.intercalate "." key_parts) "*" ".+").data)
            k.data = false) →
        fetch_resource key_parts attr (Json.objL kvs) = Except.ok (Json.arrL [])) ∧
    parse_tfstate_file "aws_*/ip" docRootEmpty = Except.ok (Json.str "[]") := by
  constructor
  · intro key_parts attr kvs hstar hnone
    unfold fetch_resource
    rw [resourcePhase_no_match key_parts kvs hstar hnone]
    rw [okBind]
    exact attrPhase_nil attr
  · rfl

/-- C10, witness: a one-resource dict whose key does not match `aws_*`. -/
theorem C10_amended_witness :
    fetch_resource ["aws_*"] "ip" (Json.objL [("other.res", Json.null)]) =
      Except.ok (Json.arrL []) :=
  C10_amended.1 ["aws_*"] "ip" [("other.res", Json.null)] (by decide) (by decide)
